import Mathlib

/-!
Shallow embedding of the session-workflow core of the V310 repository:
the Scoped File Guard (`agent_tools._is_safe_filename`,
`agent_tools._is_path_within_session`), the Session State Manager
(`session_state_manager.py`), the Conversation Store
(`conversation_memory.py`) and the Agent Tool Facade operations
`pause_workflow` and `refine_search_query`.

Python dict-valued session records are modelled as association lists of
JSON-like values (`Val`); Python `datetime.now().isoformat()` timestamps
are modelled as an opaque clock value passed to each operation; SQLite
state is modelled as an explicit record of rows and rollups; the
filesystem is modelled as a map from session id to the persisted
document.  Numeric fields use `Int`/`Rat` (Python ints and exact
rational stand-ins for floats; every value the claims touch is exactly
representable).
-/

namespace V310

/-- JSON-like values, the codomain of Python dict fields. -/
inductive Val : Type where
  | str : String → Val
  | int : Int → Val
  | rat : Rat → Val
  | bool : Bool → Val
  | list : List Val → Val
  | obj : List (String × Val) → Val
  | null : Val

/-- A Python dict with string keys, as an ordered association list
(Python dicts preserve insertion order and never hold duplicate keys). -/
abbrev Dict := List (String × Val)

/-- Association list lookup (`d[k]` / `d.get(k)`): first binding of `k`.
Used both for record dicts and for the session table. -/
def aget {α : Type} (k : String) : List (String × α) → Option α
  | [] => none
  | (k', v) :: rest => if k' = k then some v else aget k rest

/-- Association list assignment (`d[k] = v`): replace the binding in
place if present, else append (Python dict assignment semantics). -/
def aset {α : Type} (k : String) (v : α) : List (String × α) → List (String × α)
  | [] => [(k, v)]
  | (k', v') :: rest => if k' = k then (k, v) :: rest else (k', v') :: aset k v rest

/-- `d.update(d2)`: left-to-right assignment of every binding of `d2`. -/
def dupdate (d d2 : Dict) : Dict := d2.foldl (fun acc kv => aset kv.1 kv.2 acc) d

/-- `d.get(k, default)`. -/
def dgetD (d : Dict) (k : String) (v : Val) : Val := (aget k d).getD v

/-- Keys of a dict. -/
def dkeys (d : Dict) : List String := d.map Prod.fst

/-- Python truthiness of a value (`if not x`). -/
def valTruthy : Val → Bool
  | .str s => !(s == "")
  | .int n => !(n == 0)
  | .rat q => !(q == 0)
  | .bool b => b
  | .null => false
  | .list l => !l.isEmpty
  | .obj l => !l.isEmpty

/-- Python truthiness where `none` models Python `None`. -/
def valTruthyOpt : Option Val → Bool
  | none => false
  | some v => valTruthy v

/-- Python `str(x)` as used in f-string messages.  Containers are
abbreviated: no claim observes a message interpolating a container. -/
def pyStr : Val → String
  | .str s => s
  | .int n => toString n
  | .rat q => toString q
  | .bool b => if b then "True" else "False"
  | .null => "None"
  | .list _ => "[...]"
  | .obj _ => "\x7b...\x7d"

/-! ### Strings and paths (Python `str` / `os.path` helpers) -/

/-- Python `sub in s` substring test. -/
def containsSub (sub : List Char) : List Char → Bool
  | [] => sub.isEmpty
  | c :: rest => sub.isPrefixOf (c :: rest) || containsSub sub rest

/-- Python `s.startswith(pre)`. -/
def pyStartswith (s pre : String) : Bool := pre.data.isPrefixOf s.data

/-- Python `s.endswith(suf)`. -/
def pyEndswith (s suf : String) : Bool := suf.data.isSuffixOf s.data

/-- Python `s.strip()`: drop leading and trailing whitespace. -/
def pyStrip (s : String) : String :=
  String.mk (((s.data.dropWhile Char.isWhitespace).reverse.dropWhile Char.isWhitespace).reverse)

/-- Index of the last `'.'` in a character list, if any. -/
def lastDotIdx : List Char → Option Nat
  | [] => none
  | c :: rest =>
    match lastDotIdx rest with
    | some i => some (i + 1)
    | none => if c = '.' then some 0 else none

/-- `os.path.splitext(filename)[0]` for a name without path separators:
split at the last dot unless every character before it is a dot
(so `".bashrc"` keeps its dot, `"report.txt"` → `"report"`). -/
def splitextBase (s : List Char) : List Char :=
  match lastDotIdx s with
  | none => s
  | some i => if (s.take i).all (fun c => c = '.') then s else s.take i

/-- Python `s.upper()` (ASCII; filenames here are ASCII). -/
def pyUpper (s : List Char) : List Char := s.map Char.toUpper

/-- Split a character list on a separator character
(`s.split(sep)` for a one-character separator). -/
def splitOnChar (sep : Char) : List Char → List (List Char)
  | [] => [[]]
  | c :: rest =>
    match splitOnChar sep rest with
    | h :: t => if c = sep then [] :: h :: t else (c :: h) :: t
    | [] => [[c]]

/-- Join path components with `'/'`. -/
def joinComps : List (List Char) → List Char
  | [] => []
  | [c] => c
  | c :: rest => c ++ '/' :: joinComps rest

/-- `posixpath.normpath` restricted to the shapes reaching it here:
absolute inputs with a single leading slash (the double-leading-slash
POSIX special case is not modelled). -/
def normpath (p : String) : String :=
  let comps := (splitOnChar '/' p.data).filter (fun c => !(c.isEmpty) && !(c == ['.']))
  let stack := comps.foldl
    (fun st c => if c = ['.', '.'] then st.dropLast else st ++ [c]) ([] : List (List Char))
  String.mk ('/' :: joinComps stack)

/-- `os.path.abspath` with an explicit current working directory
(absolute, single leading slash). -/
def abspath (cwd p : String) : String :=
  normpath (if pyStartswith p "/" then p else cwd ++ "/" ++ p)

/-- `os.path.join(a, b)` for a relative `b` and an `a` not ending in a
separator — the only shape the manager uses. -/
def joinPath (a b : String) : String := a ++ "/" ++ b

/-! ### Scoped File Guard (`agent_tools.py`) -/

/-- `AgentTools._is_safe_filename`. -/
def is_safe_filename (filename : String) : Bool :=
  let cs := filename.data
  let forbidden_chars := ["..", "/", "\\", ":", "*", "?", "\"", "<", ">", "|"]
  let forbidden_names := ["CON", "PRN", "AUX", "NUL",
    "COM1", "COM2", "COM3", "COM4", "COM5", "COM6", "COM7", "COM8", "COM9",
    "LPT1", "LPT2", "LPT3", "LPT4", "LPT5", "LPT6", "LPT7", "LPT8", "LPT9"]
  if forbidden_chars.any (fun c => containsSub c.data cs) then false
  else if forbidden_names.contains (String.mk (pyUpper (splitextBase cs))) then false
  else if filename == "" || pyStartswith filename "." || pyStartswith filename " "
       || pyEndswith filename " " then false
  else true

/-- `AgentTools._is_path_within_session`: resolve both paths with
`os.path.abspath` and test `abs_file_path.startswith(abs_session_dir)`. -/
def is_path_within_session (cwd file_path session_dir : String) : Bool :=
  pyStartswith (abspath cwd file_path) (abspath cwd session_dir)

/-! ### Rounding (Python `round(x, 2)`) -/

/-- Python `round` to an integer: nearest, ties to even. -/
def roundHalfEven (q : Rat) : Int :=
  let f : Int := ⌊q⌋
  if q - f < 1/2 then f
  else if 1/2 < q - f then f + 1
  else if f % 2 = 0 then f else f + 1

/-- Python `round(q, 2)`. -/
def round2 (q : Rat) : Rat := ((roundHalfEven (q * 100) : Int) : Rat) / 100

/-! ### Session State Manager (`session_state_manager.py`)

State is the in-memory session table plus the persisted per-session
documents (`disk`, modelling one `config.json` per session directory).
`now` models the value of `datetime.now().isoformat()` during one call. -/

/-- `datetime.now().isoformat()` at abstract clock tick `n`. -/
def isoTime (n : Nat) : String := toString n

structure MgrState where
  analyses_base_dir : String
  sessions : List (String × Dict)
  disk : List (String × Dict)

/-- Fields stripped from persisted documents and external copies. -/
def stripInternal (d : Dict) : Dict :=
  d.filter (fun kv => !(["thread", "lock", "session_dir", "config_path"].contains kv.1))

/-- `SessionStateManager._save_session_to_disk`. -/
def save_session_to_disk (sid : String) (st : MgrState) : MgrState :=
  match aget sid st.sessions with
  | none => st
  | some d => { st with disk := aset sid (stripInternal d) st.disk }

/-- `SessionStateManager.register_session`. -/
def register_session (now : Nat) (sid query : String) (initial_data : Option Dict)
    (st : MgrState) : Bool × MgrState :=
  if (aget sid st.sessions).isSome then (false, st)
  else
    let session_dir := joinPath st.analyses_base_dir sid
    let seed : Dict := [
      ("session_id", .str sid),
      ("status", .str "idle"),
      ("current_step", .int 0),
      ("created_at", .str (isoTime now)),
      ("updated_at", .str (isoTime now)),
      ("query", .str query),
      ("module_results", .obj []),
      ("analysis_progress", .obj [
        ("total_steps", .int 0),
        ("completed_steps", .int 0),
        ("current_module", .str ""),
        ("progress_percentage", .int 0)]),
      ("error_log", .list []),
      ("config_path", .str (joinPath session_dir "config.json")),
      ("session_dir", .str session_dir)]
    let session_data := match initial_data with
      | some d2 => dupdate seed d2
      | none => seed
    let st1 := { st with sessions := aset sid session_data st.sessions }
    (true, save_session_to_disk sid st1)

/-- `SessionStateManager.set_status`.  The status argument is a `Val`
because `refine_search_query` passes back whatever value
`get_status(...).get('status', 'idle')` returned. -/
def set_status (now : Nat) (sid : String) (status : Val) (step : Option Int)
    (additional_data : Option Dict) (st : MgrState) : Bool × MgrState :=
  match aget sid st.sessions with
  | none => (false, st)
  | some d =>
    let d1 := aset "status" status d
    let d2 := aset "updated_at" (.str (isoTime now)) d1
    let d3 := match step with
      | some n => aset "current_step" (.int n) d2
      | none => d2
    let d4 := match additional_data with
      | some ad => dupdate d3 ad
      | none => d3
    let st1 := { st with sessions := aset sid d4 st.sessions }
    (true, save_session_to_disk sid st1)

/-- `SessionStateManager.get_status`: defensive copy with internal
fields stripped. -/
def get_status (sid : String) (st : MgrState) : Option Dict :=
  (aget sid st.sessions).map stripInternal

/-- `SessionStateManager.get_session_directory` (`none` models Python
`None`, returned both for an unknown session and a missing field). -/
def get_session_directory (sid : String) (st : MgrState) : Option Val :=
  match aget sid st.sessions with
  | some d => aget "session_dir" d
  | none => none

/-- `SessionStateManager.update_progress`. -/
def update_progress (now : Nat) (sid current_module : String)
    (completed_steps total_steps : Int) (st : MgrState) : Bool × MgrState :=
  match aget sid st.sessions with
  | none => (false, st)
  | some d =>
    let pct : Val := if 0 < total_steps
      then .rat (round2 ((completed_steps : Rat) / (total_steps : Rat) * 100))
      else .int 0
    let d1 := aset "analysis_progress" (.obj [
        ("total_steps", .int total_steps),
        ("completed_steps", .int completed_steps),
        ("current_module", .str current_module),
        ("progress_percentage", pct)]) d
    let d2 := aset "updated_at" (.str (isoTime now)) d1
    (true, save_session_to_disk sid { st with sessions := aset sid d2 st.sessions })

/-- `SessionStateManager.add_error_log`.  A present non-list
`error_log` makes `.append` raise; the boundary handler returns
`False` with the state unchanged. -/
def add_error_log (now : Nat) (sid error_message module_name : String)
    (st : MgrState) : Bool × MgrState :=
  match aget sid st.sessions with
  | none => (false, st)
  | some d =>
    let entry : Val := .obj [
      ("timestamp", .str (isoTime now)),
      ("module", .str module_name),
      ("message", .str error_message)]
    let d0 := if (aget "error_log" d).isNone then aset "error_log" (.list []) d else d
    match aget "error_log" d0 with
    | some (.list log) =>
      let log1 := log ++ [entry]
      let log2 := if 50 < log1.length then log1.drop (log1.length - 50) else log1
      let d1 := aset "error_log" (.list log2) d0
      let d2 := aset "updated_at" (.str (isoTime now)) d1
      (true, save_session_to_disk sid { st with sessions := aset sid d2 st.sessions })
    | _ => (false, st)

/-- One session record as `_load_sessions_from_disk` rebuilds it from a
persisted document. -/
def load_session_from_config (now : Nat) (base sid : String) (config : Dict) : Dict :=
  let session_dir := joinPath base sid
  [("session_id", .str sid),
   ("status", dgetD config "status" (.str "idle")),
   ("current_step", dgetD config "current_step" (.int 0)),
   ("created_at", dgetD config "created_at" (.str (isoTime now))),
   ("updated_at", .str (isoTime now)),
   ("query", dgetD config "query" (.str "")),
   ("module_results", dgetD config "module_results" (.obj [])),
   ("analysis_progress", dgetD config "analysis_progress" (.obj [])),
   ("error_log", dgetD config "error_log" (.list [])),
   ("config_path", .str (joinPath session_dir "config.json")),
   ("session_dir", .str session_dir)]

/-- `SessionStateManager._load_sessions_from_disk` on a fresh manager:
the in-memory table is rebuilt from the persisted documents
(simulated restart; directory listing is modelled by `disk`). -/
def load_sessions_from_disk (now : Nat) (st : MgrState) : MgrState :=
  { st with sessions :=
      st.disk.map (fun kv => (kv.1, load_session_from_config now st.analyses_base_dir kv.1 kv.2)) }

/-! ### Agent Tool Facade (`agent_tools.py`) -/

/-- `AgentTools.pause_workflow`. -/
def pause_workflow (now : Nat) (sid reason : String) (st : MgrState) : Dict × MgrState :=
  match get_status sid st with
  | none =>
    ([("status", .str "error"),
      ("message", .str ("Sessão " ++ sid ++ " não encontrada"))], st)
  | some current_status =>
    let isRunning := match aget "status" current_status with
      | some (.str s) => s == "running"
      | _ => false
    if !isRunning then
      ([("status", .str "warning"),
        ("message", .str ("Sessão " ++ sid ++ " não está executando. Status atual: "
          ++ pyStr (dgetD current_status "status" .null)))], st)
    else
      let r := set_status now sid (.str "paused") none
        (some [("pause_reason", .str reason), ("paused_at", .str (isoTime now))]) st
      if r.1 then
        let r2 := add_error_log now sid ("Workflow pausado: " ++ reason) "AgentTools" r.2
        (([("status", .str "success"),
           ("message", .str "Workflow pausado com sucesso"),
           ("session_id", .str sid),
           ("reason", .str reason)]), r2.2)
      else
        ([("status", .str "error"), ("message", .str "Falha ao pausar workflow")], r.2)

/-- `AgentTools.refine_search_query`. -/
def refine_search_query (now : Nat) (sid new_query : String) (st : MgrState) : Dict × MgrState :=
  if new_query == "" || pyStrip new_query == "" then
    ([("status", .str "error"), ("message", .str "Query não pode estar vazia")], st)
  else
    let nq := pyStrip new_query
    if !(valTruthyOpt (get_session_directory sid st)) then
      ([("status", .str "error"),
        ("message", .str ("Sessão " ++ sid ++ " não encontrada"))], st)
    else
      match get_status sid st with
      | none =>
        ([("status", .str "error"), ("message", .str "AttributeError")], st)
      | some cs =>
        let r := set_status now sid (dgetD cs "status" (.str "idle")) none
          (some [("query", .str nq), ("query_updated_at", .str (isoTime now))]) st
        if r.1 then
          match get_status sid r.2 with
          | none =>
            ([("status", .str "error"), ("message", .str "AttributeError")], r.2)
          | some cs2 =>
            ([("status", .str "success"),
              ("message", .str "Query de busca atualizada com sucesso"),
              ("session_id", .str sid),
              ("new_query", .str nq),
              ("previous_query", dgetD cs2 "query" (.str ""))], r.2)
        else
          ([("status", .str "error"), ("message", .str "Falha ao atualizar query")], r.2)

/-! ### Conversation Store (`conversation_memory.py`)

The SQLite file is modelled as the list of `conversations` rows (with
the AUTOINCREMENT counter) plus the `session_summaries` table.
`metadata`/`tool_calls` hold the serialized JSON text or `none` for
SQL NULL. -/

structure ConvRow where
  id : Nat
  session_id : String
  role : String
  message : String
  timestamp : Nat
  metadata : Option String
  tokens_used : Int
  model_used : String
  tool_calls : Option String
deriving DecidableEq, Repr

structure SessionSummary where
  summary : Option String
  total_messages : Int
  total_tokens : Int
  first_message_at : Option Nat
  last_message_at : Option Nat
  status : String
deriving DecidableEq, Repr

structure ConvDB where
  rows : List ConvRow
  next_id : Nat
  summaries : List (String × SessionSummary)

/-- `ConversationMemory._update_session_summary`: create-if-absent with
`total_messages = 1`, else increment counts and `last_message_at`. -/
def update_session_summary_tx (now : Nat) (sid : String) (tokens_used : Int)
    (db : ConvDB) : ConvDB :=
  match aget sid db.summaries with
  | some s =>
    let s2 := { s with total_messages := s.total_messages + 1,
                       total_tokens := s.total_tokens + tokens_used,
                       last_message_at := some now }
    { db with summaries := aset sid s2 db.summaries }
  | none =>
    let s2 : SessionSummary := ⟨none, 1, tokens_used, some now, some now, "active"⟩
    { db with summaries := aset sid s2 db.summaries }

/-- `ConversationMemory.add_message`: one transaction inserting the
turn row and updating the rollup. -/
def add_message (now : Nat) (sid role message : String) (metadata : Option String)
    (tokens_used : Int) (model_used : String) (tool_calls : Option String)
    (db : ConvDB) : Bool × ConvDB :=
  let row : ConvRow :=
    ⟨db.next_id, sid, role, message, now, metadata, tokens_used, model_used, tool_calls⟩
  let db1 := { db with rows := db.rows ++ [row], next_id := db.next_id + 1 }
  (true, update_session_summary_tx now sid tokens_used db1)

/-- Stable insertion into a timestamp-ascending list. -/
def insRow (r : ConvRow) : List ConvRow → List ConvRow
  | [] => [r]
  | x :: xs => if x.timestamp < r.timestamp then x :: insRow r xs else r :: x :: xs

/-- `ORDER BY timestamp ASC` as a stable sort. -/
def sortRows (rs : List ConvRow) : List ConvRow := rs.foldr insRow []

/-- `ConversationMemory.get_conversation_history` without metadata:
the session's rows in ascending timestamp order, limited. -/
def get_conversation_history (sid : String) (lim : Nat) (db : ConvDB) : List ConvRow :=
  (sortRows (db.rows.filter (fun r => r.session_id == sid))).take lim

/-- `SELECT * FROM session_summaries WHERE session_id = ?`. -/
def get_session_summary (sid : String) (db : ConvDB) : Option SessionSummary :=
  aget sid db.summaries

/-! ### Derived forms used in the statements -/

/-- The error-log entry `add_error_log` appends for a call at clock
`now` with the given message and module name. -/
def entryOf (now : Nat) (error_message module_name : String) : Val :=
  .obj [("timestamp", .str (isoTime now)),
        ("module", .str module_name),
        ("message", .str error_message)]

/-- A sequence of `add_error_log` calls
(each element is `(now, error_message, module_name)`). -/
def addErrors (sid : String) (es : List (Nat × String × String)) (st : MgrState) : MgrState :=
  es.foldl (fun s e => (add_error_log e.1 sid e.2.1 e.2.2 s).2) st

/-- The record update performed by a successful `pause_workflow`
(the `set_status` overlay with the pause fields). -/
def pausedDict (now : Nat) (reason : String) (d : Dict) : Dict :=
  dupdate (aset "updated_at" (.str (isoTime now)) (aset "status" (.str "paused") d))
    [("pause_reason", .str reason), ("paused_at", .str (isoTime now))]

/-- A manager state before any session exists. -/
def baseState : MgrState := ⟨"analyses_data", [], []⟩

/-- The state after registering session `"s1"` with query
`"market trends"` at clock 0. -/
def regState : MgrState := (register_session 0 "s1" "market trends" none baseState).2

/-- The state after registering session `"s1"` with query
`"old query"` at clock 0. -/
def regStateOld : MgrState := (register_session 0 "s1" "old query" none baseState).2

/-! ### Association list and dict lemmas -/

theorem aget_aset_self {α : Type} (k : String) (v : α) (l : List (String × α)) :
    aget k (aset k v l) = some v := by
  induction l with
  | nil => simp [aget, aset]
  | cons kv rest ih =>
    by_cases h : kv.1 = k
    · simp [aset, h, aget]
    · simpa [aset, h, aget] using ih

theorem aget_aset_ne {α : Type} {k k' : String} (h : k' ≠ k) (v : α)
    (l : List (String × α)) : aget k (aset k' v l) = aget k l := by
  induction l with
  | nil => simp [aget, aset, h]
  | cons kv rest ih =>
    by_cases h2 : kv.1 = k'
    · simp [aset, h2, aget, h]
    · by_cases h3 : kv.1 = k
      · simp [aset, h2, aget, h3, Ne.symm h]
      · simpa [aset, h2, aget, h3] using ih

theorem aget_eq_none_of_not_mem {α : Type} {k : String} {l : List (String × α)}
    (h : k ∉ l.map Prod.fst) : aget k l = none := by
  induction l with
  | nil => rfl
  | cons kv rest ih =>
    simp only [List.map_cons, List.mem_cons] at h
    push_neg at h
    simp [aget, Ne.symm h.1, ih h.2]

theorem aget_dupdate_of_not_mem {k : String} {d2 : Dict} (d : Dict)
    (h : k ∉ dkeys d2) : aget k (dupdate d d2) = aget k d := by
  induction d2 generalizing d with
  | nil => rfl
  | cons kv rest ih =>
    simp only [dkeys, List.map_cons, List.mem_cons] at h
    push_neg at h
    have step : dupdate d (kv :: rest) = dupdate (aset kv.1 kv.2 d) rest := rfl
    rw [step, ih (aset kv.1 kv.2 d) h.2, aget_aset_ne (Ne.symm h.1)]

theorem aget_dupdate {d2 : Dict} (d : Dict) (k : String) (hnd : (dkeys d2).Nodup) :
    aget k (dupdate d d2) =
      match aget k d2 with
      | some v => some v
      | none => aget k d := by
  induction d2 generalizing d with
  | nil => rfl
  | cons kv rest ih =>
    have step : dupdate d (kv :: rest) = dupdate (aset kv.1 kv.2 d) rest := rfl
    simp only [dkeys, List.map_cons, List.nodup_cons] at hnd
    by_cases h : kv.1 = k
    · subst h
      have hn : aget kv.1 rest = none :=
        aget_eq_none_of_not_mem (by simpa [dkeys] using hnd.1)
      rw [step, aget_dupdate_of_not_mem _ (by simpa [dkeys] using hnd.1)]
      simp [aget, hn, aget_aset_self]
    · rw [step, ih _ hnd.2]
      simp [aget, h, aget_aset_ne h]

theorem aget_filter {α : Type} (p : String × α → Bool) (k : String)
    (l : List (String × α)) (hp : ∀ v, p (k, v) = true) :
    aget k (l.filter p) = aget k l := by
  induction l with
  | nil => rfl
  | cons kv rest ih =>
    by_cases h : kv.1 = k
    · have : p kv = true := by
        have := hp kv.2
        rwa [show (k, kv.2) = kv by rw [← h]] at this
      simp [List.filter, this, aget, h]
    · cases hpkv : p kv <;> simp [List.filter, hpkv, aget, h, ih]

/-- Lookup of a non-internal field passes through `stripInternal`. -/
theorem aget_stripInternal {k : String} (d : Dict)
    (h : !(["thread", "lock", "session_dir", "config_path"].contains k) = true) :
    aget k (stripInternal d) = aget k d := by
  apply aget_filter
  intro v
  simpa using h

/-- `save_session_to_disk` never changes the in-memory table. -/
theorem sessions_save_session_to_disk (sid : String) (st : MgrState) :
    (save_session_to_disk sid st).sessions = st.sessions := by
  unfold save_session_to_disk
  cases aget sid st.sessions <;> rfl

theorem aget_map_snd {α β : Type} (k : String) (f : String → α → β)
    (l : List (String × α)) :
    aget k (l.map (fun kv => (kv.1, f kv.1 kv.2))) = (aget k l).map (f k) := by
  induction l with
  | nil => rfl
  | cons kv rest ih =>
    by_cases h : kv.1 = k
    · subst h; simp [aget]
    · simp [aget, h, ih]

/-! ### Last-fifty truncation lemmas -/

/-- The source's `log[-50:]` truncation step equals `List.rtake _ 50`. -/
theorem trunc_eq_rtake (xs : List Val) :
    (if 50 < xs.length then xs.drop (xs.length - 50) else xs) = xs.rtake 50 := by
  unfold List.rtake
  by_cases h : 50 < xs.length
  · simp [h]
  · have h0 : xs.length - 50 = 0 := by omega
    simp [h, h0]

/-- Re-truncating after an append sees only the tail: the last fifty of
`rtake xs 50 ++ ys` are the last fifty of `xs ++ ys`. -/
theorem rtake_append_rtake (xs ys : List Val) :
    (xs.rtake 50 ++ ys).rtake 50 = (xs ++ ys).rtake 50 := by
  simp only [List.rtake_eq_reverse_take_reverse, List.reverse_append, List.reverse_reverse]
  rw [List.take_append_eq_append_take, List.take_append_eq_append_take, List.take_take,
    Nat.min_eq_left (Nat.sub_le _ _)]

/-- Once at least `n` elements were appended, only they survive. -/
theorem rtake_append_of_le {n : Nat} (xs ys : List Val) (h : n ≤ ys.length) :
    (xs ++ ys).rtake n = ys.rtake n := by
  simp only [List.rtake_eq_reverse_take_reverse, List.reverse_append]
  rw [List.take_append_of_le_length (by simpa using h)]

theorem length_rtake_le (xs : List Val) (n : Nat) : (xs.rtake n).length ≤ n := by
  unfold List.rtake
  simp only [List.length_drop]
  omega

/-! ### Behaviour of `add_error_log` -/

/-- One `add_error_log` call on a session whose `error_log` is a list
appends the entry and keeps the last fifty. -/
theorem add_error_log_step (now : Nat) (sid msg mod : String) {st : MgrState} {d : Dict}
    {L : List Val} (h1 : aget sid st.sessions = some d)
    (h2 : aget "error_log" d = some (.list L)) :
    (add_error_log now sid msg mod st).1 = true ∧
    ∃ d', aget sid ((add_error_log now sid msg mod st).2).sessions = some d' ∧
      aget "error_log" d' = some (.list ((L ++ [entryOf now msg mod]).rtake 50)) := by
  unfold add_error_log
  rw [h1]
  simp only [h2, Option.isNone_some, Bool.false_eq_true, if_false]
  refine ⟨trivial, ?_⟩
  simp only [sessions_save_session_to_disk, aget_aset_self]
  exact ⟨_, rfl, by rw [aget_aset_ne (by decide), aget_aset_self, trunc_eq_rtake]; rfl⟩

/-- Folding a sequence of `add_error_log` calls over a session whose
log started within the cap leaves the last fifty of the old log plus
all appended entries. -/
theorem addErrors_log (sid : String) (es : List (Nat × String × String)) :
    ∀ (st : MgrState) (d : Dict) (L : List Val), aget sid st.sessions = some d →
    aget "error_log" d = some (.list L) → L.length ≤ 50 →
    ∃ d', aget sid (addErrors sid es st).sessions = some d' ∧
      aget "error_log" d' =
        some (.list ((L ++ es.map (fun e => entryOf e.1 e.2.1 e.2.2)).rtake 50)) := by
  induction es with
  | nil =>
    intro st d L h1 h2 h3
    refine ⟨d, h1, ?_⟩
    rw [h2]
    simp only [List.map_nil, List.append_nil]
    unfold List.rtake
    have h0 : L.length - 50 = 0 := by omega
    rw [h0, List.drop_zero]
  | cons e rest ih =>
    intro st d L h1 h2 h3
    obtain ⟨_, d1, hd1, hlog1⟩ := add_error_log_step e.1 sid e.2.1 e.2.2 h1 h2
    have step : addErrors sid (e :: rest) st =
        addErrors sid rest ((add_error_log e.1 sid e.2.1 e.2.2 st).2) := rfl
    rw [step]
    obtain ⟨d2, hd2, hlog2⟩ := ih _ d1 _ hd1 hlog1 (length_rtake_le _ _)
    refine ⟨d2, hd2, ?_⟩
    rw [hlog2, rtake_append_rtake, List.append_assoc]
    rfl

/-! ### Field preservation by `add_error_log` -/

theorem add_error_log_preserves (now : Nat) (sid msg mod : String) (st : MgrState) {d : Dict}
    (h : aget sid st.sessions = some d) (k : String) (hk1 : k ≠ "error_log")
    (hk2 : k ≠ "updated_at") :
    ∃ d', aget sid ((add_error_log now sid msg mod st).2).sessions = some d' ∧
      aget k d' = aget k d := by
  unfold add_error_log
  rw [h]
  cases hel : aget "error_log" d with
  | none =>
    simp only [hel, Option.isNone_none, if_true, aget_aset_self]
    simp only [sessions_save_session_to_disk, aget_aset_self]
    exact ⟨_, rfl, by
      rw [aget_aset_ne (Ne.symm hk2), aget_aset_ne (Ne.symm hk1), aget_aset_ne (Ne.symm hk1)]⟩
  | some v =>
    cases v with
    | list log =>
      simp only [hel, Option.isNone_some, Bool.false_eq_true, if_false]
      simp only [sessions_save_session_to_disk, aget_aset_self]
      exact ⟨_, rfl, by rw [aget_aset_ne (Ne.symm hk2), aget_aset_ne (Ne.symm hk1)]⟩
    | str s =>
      simp only [hel, Option.isNone_some, Bool.false_eq_true, if_false]
      exact ⟨d, h, rfl⟩
    | int n =>
      simp only [hel, Option.isNone_some, Bool.false_eq_true, if_false]
      exact ⟨d, h, rfl⟩
    | rat q =>
      simp only [hel, Option.isNone_some, Bool.false_eq_true, if_false]
      exact ⟨d, h, rfl⟩
    | bool b =>
      simp only [hel, Option.isNone_some, Bool.false_eq_true, if_false]
      exact ⟨d, h, rfl⟩
    | obj o =>
      simp only [hel, Option.isNone_some, Bool.false_eq_true, if_false]
      exact ⟨d, h, rfl⟩
    | null =>
      simp only [hel, Option.isNone_some, Bool.false_eq_true, if_false]
      exact ⟨d, h, rfl⟩

/-- A successful pause performs exactly the `set_status` overlay
captured by `pausedDict`. -/
theorem set_status_pause (now : Nat) (sid reason : String) (st : MgrState) {d : Dict}
    (h1 : aget sid st.sessions = some d) :
    set_status now sid (.str "paused") none
        (some [("pause_reason", .str reason), ("paused_at", .str (isoTime now))]) st =
      (true, save_session_to_disk sid
        { st with sessions := aset sid (pausedDict now reason d) st.sessions }) := by
  unfold set_status
  rw [h1]
  rfl

/-! ### Substring, prefix and suffix bridges -/

/-- `containsSub` decides the infix relation (Python `sub in s`). -/
theorem containsSub_iff (sub s : List Char) : containsSub sub s = true ↔ sub <:+: s := by
  induction s with
  | nil =>
    simp [containsSub, List.isEmpty_iff]
  | cons c rest ih =>
    simp only [containsSub, Bool.or_eq_true, List.isPrefixOf_iff_prefix, ih]
    exact (List.infix_cons_iff).symm

theorem singleton_isPrefixOf_iff (a : Char) (cs : List Char) :
    [a].isPrefixOf cs = true ↔ cs.head? = some a := by
  cases cs with
  | nil => simp [List.isPrefixOf]
  | cons c rest =>
    constructor
    · intro h
      have h2 : ((a == c) && List.isPrefixOf ([] : List Char) rest) = true := h
      have h3 : a = c := beq_iff_eq.mp ((Bool.and_eq_true _ _).mp h2).1
      simp [h3]
    · intro h
      have hc : c = a := by simpa using h
      subst hc
      show ((c == c) && List.isPrefixOf ([] : List Char) rest) = true
      simp [List.isPrefixOf]

theorem singleton_isSuffixOf_iff (a : Char) (cs : List Char) :
    [a].isSuffixOf cs = true ↔ cs.getLast? = some a := by
  unfold List.isSuffixOf
  rw [show ([a].reverse) = [a] from rfl, singleton_isPrefixOf_iff, List.head?_reverse]

/-- The three-test rejection chain of `_is_safe_filename` returns
`false` once any test fires. -/
theorem if_chain_false (a b c : Bool) (h : a = true ∨ b = true ∨ c = true) :
    (if a then false else if b then false else if c then false else true) = false := by
  rcases h with h | h | h
  · subst h; rfl
  · subst h; cases a <;> rfl
  · subst h; cases a <;> cases b <;> rfl

/-! ### Behaviour of `update_progress` and the conversation store -/

/-- `update_progress` on an existing session stores exactly the
recomputed progress object. -/
theorem update_progress_result (now : Nat) (sid m : String) (c t : Int) (st : MgrState)
    {d : Dict} (h1 : aget sid st.sessions = some d) :
    (update_progress now sid m c t st).1 = true ∧
    ∃ d', aget sid ((update_progress now sid m c t st).2).sessions = some d' ∧
      aget "analysis_progress" d' = some (.obj [
        ("total_steps", .int t), ("completed_steps", .int c), ("current_module", .str m),
        ("progress_percentage",
          if 0 < t then Val.rat (round2 ((c : Rat) / (t : Rat) * 100)) else Val.int 0)]) := by
  unfold update_progress
  rw [h1]
  refine ⟨rfl, ?_⟩
  simp only [sessions_save_session_to_disk, aget_aset_self]
  exact ⟨_, rfl, by rw [aget_aset_ne (by decide), aget_aset_self]⟩

/-- The rollup update inside the `add_message` transaction never
touches the turn rows. -/
theorem rows_update_summary (now : Nat) (sid : String) (tok : Int) (db : ConvDB) :
    (update_session_summary_tx now sid tok db).rows = db.rows := by
  unfold update_session_summary_tx
  cases aget sid db.summaries <;> rfl

/-! ### Claim theorems -/

/-- C1: `_is_path_within_session` resolves both paths with `abspath`
but then compares by naive string prefixing, so the sibling directory
`/data/sess1evil` is accepted as "within" `/data/sess1`.  The claim
requires `false` at this input; the code returns `true` (while also
returning `true` at the genuine member path). -/
theorem c1_path_guard_naive_prefix :
    is_path_within_session "/cwd" "/data/sess1evil/x.txt" "/data/sess1" = true ∧
    is_path_within_session "/cwd" "/data/sess1/x.txt" "/data/sess1" = true :=
  ⟨by decide, by decide⟩

/-- C2: on a session whose query is `"old query"`, refining the query
to `"market trends"` succeeds but reports
`previous_query = "market trends"`: the record is re-read only after
the overlay, so the pre-call value `"old query"` is lost. -/
theorem c2_previous_query_is_new_query :
    aget "query" ((aget "s1" regStateOld.sessions).getD []) = some (.str "old query") ∧
    aget "status" (refine_search_query 1 "s1" "market trends" regStateOld).1 =
      some (.str "success") ∧
    aget "new_query" (refine_search_query 1 "s1" "market trends" regStateOld).1 =
      some (.str "market trends") ∧
    aget "previous_query" (refine_search_query 1 "s1" "market trends" regStateOld).1 =
      some (.str "market trends") ∧
    Val.str "market trends" ≠ Val.str "old query" := by
  refine ⟨rfl, rfl, rfl, rfl, ?_⟩
  intro h
  injection h with h2
  exact absurd h2 (by decide)

/-- C4: `pause_workflow` transitions to `paused` only from a session
whose status is exactly `running`; on an existing session in any other
status it returns a `warning` envelope and leaves the whole manager
state (hence the session record) unchanged. -/
theorem c4_pause_guard (now : Nat) (sid reason : String) (st : MgrState) (d : Dict) (s0 : String)
    (h1 : aget sid st.sessions = some d) (h2 : aget "status" d = some (.str s0)) :
    (s0 ≠ "running" →
      aget "status" (pause_workflow now sid reason st).1 = some (.str "warning") ∧
      (pause_workflow now sid reason st).2 = st) ∧
    (s0 = "running" →
      aget "status" (pause_workflow now sid reason st).1 = some (.str "success") ∧
      ∃ d', aget sid ((pause_workflow now sid reason st).2).sessions = some d' ∧
        aget "status" d' = some (.str "paused")) := by
  have hst : get_status sid st = some (stripInternal d) := by
    unfold get_status; rw [h1]; rfl
  have hstat : aget "status" (stripInternal d) = some (.str s0) := by
    rw [aget_stripInternal d (by decide), h2]
  constructor
  · intro hne
    have hb : (s0 == "running") = false := by simpa using hne
    unfold pause_workflow
    rw [hst]
    simp only [hstat, hb, Bool.not_false, if_true]
    exact ⟨rfl, trivial⟩
  · intro heq
    subst heq
    unfold pause_workflow
    rw [hst]
    have hb : ("running" == "running") = true := by decide
    simp only [hstat, hb, Bool.not_true, Bool.false_eq_true, if_false]
    rw [set_status_pause now sid reason st h1]
    simp only [if_true]
    refine ⟨rfl, ?_⟩
    have hsess : aget sid ((save_session_to_disk sid
        { st with sessions := aset sid (pausedDict now reason d) st.sessions }).sessions)
        = some (pausedDict now reason d) := by
      rw [sessions_save_session_to_disk]
      exact aget_aset_self _ _ _
    obtain ⟨d', hd', hkeep⟩ := add_error_log_preserves now sid
      ("Workflow pausado: " ++ reason) "AgentTools" _ hsess "status" (by decide) (by decide)
    refine ⟨d', hd', ?_⟩
    rw [hkeep]
    unfold pausedDict
    rw [aget_dupdate_of_not_mem _ (by simp [dkeys]), aget_aset_ne (by decide), aget_aset_self]

/-- C4 witness: a freshly registered (idle) session satisfies the
hypotheses, and pausing it leaves the state untouched. -/
theorem c4_pause_guard_witness :
    aget "s1" regState.sessions = some ((aget "s1" regState.sessions).getD []) ∧
    aget "status" ((aget "s1" regState.sessions).getD []) = some (.str "idle") ∧
    (("idle" ≠ "running" →
      aget "status" (pause_workflow 1 "s1" "manual" regState).1 = some (.str "warning") ∧
      (pause_workflow 1 "s1" "manual" regState).2 = regState) ∧
    ("idle" = "running" →
      aget "status" (pause_workflow 1 "s1" "manual" regState).1 = some (.str "success") ∧
      ∃ d', aget "s1" ((pause_workflow 1 "s1" "manual" regState).2).sessions = some d' ∧
        aget "status" d' = some (.str "paused"))) :=
  ⟨rfl, rfl, c4_pause_guard 1 "s1" "manual" regState _ "idle" rfl rfl⟩

/-- C5 counterexample: the fifty-entry cap is not preserved by every
operation — a `set_status` `additional_data` overlay can store a
51-entry `error_log` directly. -/
theorem c5_overlay_breaks_cap_counterexample :
    aget "error_log" ((aget "s1" ((set_status 1 "s1" (.str "idle") none
        (some [("error_log", .list (List.replicate 51 (.str "boom")))]) regState).2).sessions).getD [])
      = some (.list (List.replicate 51 (.str "boom"))) ∧
    50 < (List.replicate 51 (Val.str "boom")).length :=
  ⟨rfl, by decide⟩

/-- C5 (amended): after any non-empty sequence of `add_error_log`
calls on an existing session whose log is within the cap, the log is
the last fifty of the old log plus the appended entries (so at most
fifty, and exactly the fifty most recent appended ones oldest-first
once at least fifty were appended). -/
theorem c5_errorlog_cap (st : MgrState) (sid : String) (d : Dict) (L : List Val)
    (es : List (Nat × String × String))
    (h1 : aget sid st.sessions = some d)
    (h2 : aget "error_log" d = some (.list L))
    (h3 : L.length ≤ 50) :
    ∃ d', aget sid (addErrors sid es st).sessions = some d' ∧
      aget "error_log" d' =
        some (.list ((L ++ es.map (fun e => entryOf e.1 e.2.1 e.2.2)).rtake 50)) ∧
      ((L ++ es.map (fun e => entryOf e.1 e.2.1 e.2.2)).rtake 50).length ≤ 50 ∧
      (50 ≤ (es.map (fun e => entryOf e.1 e.2.1 e.2.2)).length →
        (L ++ es.map (fun e => entryOf e.1 e.2.1 e.2.2)).rtake 50 =
          (es.map (fun e => entryOf e.1 e.2.1 e.2.2)).rtake 50) := by
  obtain ⟨d', hd, hlog⟩ := addErrors_log sid es st d L h1 h2 h3
  exact ⟨d', hd, hlog, length_rtake_le _ _, fun h => rtake_append_of_le _ _ h⟩

/-- C5 witness: one append on a freshly registered session. -/
theorem c5_errorlog_cap_witness :
    aget "s1" regState.sessions = some ((aget "s1" regState.sessions).getD []) ∧
    aget "error_log" ((aget "s1" regState.sessions).getD []) = some (.list []) ∧
    ([] : List Val).length ≤ 50 ∧
    (∃ d', aget "s1" (addErrors "s1" [(1, "boom", "m")] regState).sessions = some d' ∧
      aget "error_log" d' =
        some (.list ((([] : List Val) ++
          [((1 : Nat), "boom", "m")].map (fun e => entryOf e.1 e.2.1 e.2.2)).rtake 50)) ∧
      ((([] : List Val) ++
          [((1 : Nat), "boom", "m")].map (fun e => entryOf e.1 e.2.1 e.2.2)).rtake 50).length ≤ 50 ∧
      (50 ≤ ([((1 : Nat), "boom", "m")].map (fun e => entryOf e.1 e.2.1 e.2.2)).length →
        (([] : List Val) ++
          [((1 : Nat), "boom", "m")].map (fun e => entryOf e.1 e.2.1 e.2.2)).rtake 50 =
          ([((1 : Nat), "boom", "m")].map (fun e => entryOf e.1 e.2.1 e.2.2)).rtake 50)) :=
  ⟨rfl, rfl, by decide,
    c5_errorlog_cap regState "s1" _ [] [(1, "boom", "m")] rfl rfl (by decide)⟩

/-- C7 counterexample: a leading tab is whitespace, yet the filename
check tests only the space character, so `"\tfile.txt"` is accepted —
the claim's leading/trailing-whitespace rejection does not hold for
whitespace other than spaces. -/
theorem c7_tab_passes_counterexample :
    is_safe_filename "\tfile.txt" = true ∧ Char.isWhitespace '\t' = true :=
  ⟨by decide, by decide⟩

/-- C3 counterexample: overlay fields survive persistence but not
reload.  After `set_status` stores `pause_reason`, the persisted
document holds it, yet the reloaded record lacks the field — so the
reloaded record differs from the pre-restart one in a field other than
`updated_at`. -/
theorem c3_reload_drops_overlay_counterexample :
    aget "pause_reason" ((aget "s1" ((set_status 1 "s1" (.str "paused") none
        (some [("pause_reason", .str "x")]) regState).2).sessions).getD []) = some (.str "x") ∧
    aget "pause_reason" ((aget "s1" (load_sessions_from_disk 2 ((set_status 1 "s1" (.str "paused") none
        (some [("pause_reason", .str "x")]) regState).2)).sessions).getD []) = none ∧
    "pause_reason" ≠ "updated_at" :=
  ⟨rfl, rfl, by decide⟩

/-- C3 (amended): reload restores the ten standard fields of a
persisted session record — `session_id`, `status`, `current_step`,
`created_at`, `query`, `module_results`, `analysis_progress`,
`error_log`, and the recomputed `session_dir`/`config_path` — equal to
the pre-restart record, with `updated_at` reset to the reload time;
overlay keys outside this set are not restored. -/
theorem c3_reload_restores_standard_fields
    (st : MgrState) (sid : String) (d : Dict) (now2 : Nat)
    (vs vcs vca vq vmr vap vel : Val)
    (hdisk : aget sid st.disk = some (stripInternal d))
    (hsid : aget "session_id" d = some (.str sid))
    (hvs : aget "status" d = some vs)
    (hvcs : aget "current_step" d = some vcs)
    (hvca : aget "created_at" d = some vca)
    (hvq : aget "query" d = some vq)
    (hvmr : aget "module_results" d = some vmr)
    (hvap : aget "analysis_progress" d = some vap)
    (hvel : aget "error_log" d = some vel)
    (hdir : aget "session_dir" d = some (.str (joinPath st.analyses_base_dir sid)))
    (hcfg : aget "config_path" d =
      some (.str (joinPath (joinPath st.analyses_base_dir sid) "config.json"))) :
    ∃ d', aget sid (load_sessions_from_disk now2 st).sessions = some d' ∧
      aget "session_id" d' = aget "session_id" d ∧
      aget "status" d' = aget "status" d ∧
      aget "current_step" d' = aget "current_step" d ∧
      aget "created_at" d' = aget "created_at" d ∧
      aget "query" d' = aget "query" d ∧
      aget "module_results" d' = aget "module_results" d ∧
      aget "analysis_progress" d' = aget "analysis_progress" d ∧
      aget "error_log" d' = aget "error_log" d ∧
      aget "session_dir" d' = aget "session_dir" d ∧
      aget "config_path" d' = aget "config_path" d ∧
      aget "updated_at" d' = some (.str (isoTime now2)) := by
  have hload : aget sid (load_sessions_from_disk now2 st).sessions =
      some (load_session_from_config now2 st.analyses_base_dir sid (stripInternal d)) := by
    unfold load_sessions_from_disk
    rw [aget_map_snd, hdisk]
    rfl
  have p1 : aget "session_id" (stripInternal d) = some (.str sid) := by
    rw [aget_stripInternal d (by decide), hsid]
  have p2 : aget "status" (stripInternal d) = some vs := by
    rw [aget_stripInternal d (by decide), hvs]
  have p3 : aget "current_step" (stripInternal d) = some vcs := by
    rw [aget_stripInternal d (by decide), hvcs]
  have p4 : aget "created_at" (stripInternal d) = some vca := by
    rw [aget_stripInternal d (by decide), hvca]
  have p5 : aget "query" (stripInternal d) = some vq := by
    rw [aget_stripInternal d (by decide), hvq]
  have p6 : aget "module_results" (stripInternal d) = some vmr := by
    rw [aget_stripInternal d (by decide), hvmr]
  have p7 : aget "analysis_progress" (stripInternal d) = some vap := by
    rw [aget_stripInternal d (by decide), hvap]
  have p8 : aget "error_log" (stripInternal d) = some vel := by
    rw [aget_stripInternal d (by decide), hvel]
  refine ⟨_, hload, ?_, ?_, ?_, ?_, ?_, ?_, ?_, ?_, ?_, ?_, ?_⟩
  · simp [load_session_from_config, aget, dgetD, p1, hsid]
  · simp [load_session_from_config, aget, dgetD, p2, hvs]
  · simp [load_session_from_config, aget, dgetD, p3, hvcs]
  · simp [load_session_from_config, aget, dgetD, p4, hvca]
  · simp [load_session_from_config, aget, dgetD, p5, hvq]
  · simp [load_session_from_config, aget, dgetD, p6, hvmr]
  · simp [load_session_from_config, aget, dgetD, p7, hvap]
  · simp [load_session_from_config, aget, dgetD, p8, hvel]
  · simp [load_session_from_config, aget, dgetD, hdir]
  · simp [load_session_from_config, aget, dgetD, hcfg]
  · simp [load_session_from_config, aget, dgetD]

/-- C3 witness: a freshly registered session reloads with all standard
fields intact. -/
theorem c3_reload_witness :
    aget "s1" regState.disk = some (stripInternal ((aget "s1" regState.sessions).getD [])) ∧
    aget "session_id" ((aget "s1" regState.sessions).getD []) = some (.str "s1") ∧
    aget "status" ((aget "s1" regState.sessions).getD []) = some (.str "idle") ∧
    aget "current_step" ((aget "s1" regState.sessions).getD []) = some (.int 0) ∧
    aget "created_at" ((aget "s1" regState.sessions).getD []) = some (.str (isoTime 0)) ∧
    aget "query" ((aget "s1" regState.sessions).getD []) = some (.str "market trends") ∧
    aget "module_results" ((aget "s1" regState.sessions).getD []) = some (.obj []) ∧
    aget "analysis_progress" ((aget "s1" regState.sessions).getD []) =
      some (.obj [("total_steps", .int 0), ("completed_steps", .int 0),
        ("current_module", .str ""), ("progress_percentage", .int 0)]) ∧
    aget "error_log" ((aget "s1" regState.sessions).getD []) = some (.list []) ∧
    aget "session_dir" ((aget "s1" regState.sessions).getD []) =
      some (.str (joinPath regState.analyses_base_dir "s1")) ∧
    aget "config_path" ((aget "s1" regState.sessions).getD []) =
      some (.str (joinPath (joinPath regState.analyses_base_dir "s1") "config.json")) ∧
    (∃ d', aget "s1" (load_sessions_from_disk 9 regState).sessions = some d' ∧
      aget "session_id" d' = aget "session_id" ((aget "s1" regState.sessions).getD []) ∧
      aget "status" d' = aget "status" ((aget "s1" regState.sessions).getD []) ∧
      aget "current_step" d' = aget "current_step" ((aget "s1" regState.sessions).getD []) ∧
      aget "created_at" d' = aget "created_at" ((aget "s1" regState.sessions).getD []) ∧
      aget "query" d' = aget "query" ((aget "s1" regState.sessions).getD []) ∧
      aget "module_results" d' = aget "module_results" ((aget "s1" regState.sessions).getD []) ∧
      aget "analysis_progress" d' =
        aget "analysis_progress" ((aget "s1" regState.sessions).getD []) ∧
      aget "error_log" d' = aget "error_log" ((aget "s1" regState.sessions).getD []) ∧
      aget "session_dir" d' = aget "session_dir" ((aget "s1" regState.sessions).getD []) ∧
      aget "config_path" d' = aget "config_path" ((aget "s1" regState.sessions).getD []) ∧
      aget "updated_at" d' = some (.str (isoTime 9))) :=
  ⟨rfl, rfl, rfl, rfl, rfl, rfl, rfl, rfl, rfl, rfl, rfl,
    c3_reload_restores_standard_fields regState "s1" _ 9
      (.str "idle") (.int 0) (.str (isoTime 0)) (.str "market trends") (.obj [])
      (.obj [("total_steps", .int 0), ("completed_steps", .int 0),
        ("current_module", .str ""), ("progress_percentage", .int 0)]) (.list [])
      rfl rfl rfl rfl rfl rfl rfl rfl rfl rfl rfl⟩

/-- C6 counterexample: with `total_steps = -1` and
`completed_steps = 1` the code stores `progress_percentage = 0`, while
the claim's formula `completed_steps / total_steps * 100` rounded to
two decimals gives `-100` — the stored value is `0` for every
non-positive `total_steps`, not only for `total_steps = 0`. -/
theorem c6_negative_total_counterexample :
    aget "analysis_progress"
        ((aget "s1" ((update_progress 1 "s1" "m" 1 (-1) regState).2).sessions).getD [])
      = some (.obj [("total_steps", .int (-1)), ("completed_steps", .int 1),
          ("current_module", .str "m"), ("progress_percentage", .int 0)]) ∧
    round2 ((1 : Rat) / (-1 : Rat) * 100) = -100 ∧
    (0 : Rat) ≠ (-100 : Rat) := by
  refine ⟨rfl, ?_, by norm_num⟩
  norm_num [round2, roundHalfEven]

/-- C6 (amended): `update_progress` stores
`round(completed_steps / total_steps * 100, 2)` when
`total_steps > 0` and `0` when `total_steps ≤ 0` (not only at `0`); in
particular `3/10` yields `30.0` and `0/0` yields `0`. -/
theorem c6_progress_percentage (now : Nat) (sid m : String) (c t : Int) (st : MgrState)
    (d : Dict) (h1 : aget sid st.sessions = some d) :
    (∃ d', aget sid ((update_progress now sid m c t st).2).sessions = some d' ∧
      aget "analysis_progress" d' = some (.obj [
        ("total_steps", .int t), ("completed_steps", .int c), ("current_module", .str m),
        ("progress_percentage",
          if 0 < t then Val.rat (round2 ((c : Rat) / (t : Rat) * 100)) else Val.int 0)])) ∧
    (∃ d', aget sid ((update_progress now sid "m" 3 10 st).2).sessions = some d' ∧
      aget "analysis_progress" d' = some (.obj [
        ("total_steps", .int 10), ("completed_steps", .int 3), ("current_module", .str "m"),
        ("progress_percentage", .rat 30)])) ∧
    (∃ d', aget sid ((update_progress now sid "m" 0 0 st).2).sessions = some d' ∧
      aget "analysis_progress" d' = some (.obj [
        ("total_steps", .int 0), ("completed_steps", .int 0), ("current_module", .str "m"),
        ("progress_percentage", .int 0)])) := by
  refine ⟨(update_progress_result now sid m c t st h1).2, ?_, ?_⟩
  · have e1 := (update_progress_result now sid "m" 3 10 st h1).2
    norm_num [round2, roundHalfEven] at e1
    exact e1
  · have e2 := (update_progress_result now sid "m" 0 0 st h1).2
    norm_num at e2
    exact e2

/-- C6 witness: applied to the registered session. -/
theorem c6_progress_percentage_witness :
    aget "s1" regState.sessions = some ((aget "s1" regState.sessions).getD []) ∧
    ((∃ d', aget "s1" ((update_progress 1 "s1" "mod" 7 4 regState).2).sessions = some d' ∧
      aget "analysis_progress" d' = some (.obj [
        ("total_steps", .int 4), ("completed_steps", .int 7), ("current_module", .str "mod"),
        ("progress_percentage",
          if 0 < (4 : Int) then Val.rat (round2 (((7 : Int) : Rat) / ((4 : Int) : Rat) * 100))
          else Val.int 0)])) ∧
    (∃ d', aget "s1" ((update_progress 1 "s1" "m" 3 10 regState).2).sessions = some d' ∧
      aget "analysis_progress" d' = some (.obj [
        ("total_steps", .int 10), ("completed_steps", .int 3), ("current_module", .str "m"),
        ("progress_percentage", .rat 30)])) ∧
    (∃ d', aget "s1" ((update_progress 1 "s1" "m" 0 0 regState).2).sessions = some d' ∧
      aget "analysis_progress" d' = some (.obj [
        ("total_steps", .int 0), ("completed_steps", .int 0), ("current_module", .str "m"),
        ("progress_percentage", .int 0)]))) :=
  ⟨rfl, c6_progress_percentage 1 "s1" "mod" 7 4 regState _ rfl⟩

/-- C7 (amended): `_is_safe_filename` rejects a name containing any of
the forbidden substrings, a name whose extension-stripped base matches
a reserved device name case-insensitively, the empty name, and names
starting with a dot or a space or ending with a space (only the space
character is tested, not all whitespace); `"../../etc/passwd"` is
rejected and `"report.txt"` accepted. -/
theorem c7_safe_filename (name : String)
    (h : (∃ sub ∈ ["..", "/", "\\", ":", "*", "?", "\"", "<", ">", "|"],
            sub.data <:+: name.data)
      ∨ (∃ r ∈ ["CON", "PRN", "AUX", "NUL",
            "COM1", "COM2", "COM3", "COM4", "COM5", "COM6", "COM7", "COM8", "COM9",
            "LPT1", "LPT2", "LPT3", "LPT4", "LPT5", "LPT6", "LPT7", "LPT8", "LPT9"],
            (splitextBase name.data).map Char.toUpper = r.data)
      ∨ name = ""
      ∨ name.data.head? = some '.'
      ∨ name.data.head? = some ' '
      ∨ name.data.getLast? = some ' ') :
    is_safe_filename name = false ∧
    is_safe_filename "../../etc/passwd" = false ∧
    is_safe_filename "report.txt" = true := by
  refine ⟨?_, by decide, by decide⟩
  rcases h with ⟨sub, hmem, hinf⟩ | ⟨r, hmem, hupper⟩ | hempty | hdot | hspace | htrail
  · exact if_chain_false _ _ _
      (Or.inl (List.any_eq_true.mpr ⟨sub, hmem, (containsSub_iff _ _).mpr hinf⟩))
  · refine if_chain_false _ _ _ (Or.inr (Or.inl ?_))
    apply List.elem_iff.mpr
    have hmk : String.mk (pyUpper (splitextBase name.data)) = r := by
      unfold pyUpper
      rw [hupper]
    rw [hmk]
    exact hmem
  · subst hempty
    decide
  · refine if_chain_false _ _ _ (Or.inr (Or.inr ?_))
    have hC : pyStartswith name "." = true := (singleton_isPrefixOf_iff '.' name.data).mpr hdot
    simp [hC]
  · refine if_chain_false _ _ _ (Or.inr (Or.inr ?_))
    have hC : pyStartswith name " " = true := (singleton_isPrefixOf_iff ' ' name.data).mpr hspace
    simp [hC]
  · refine if_chain_false _ _ _ (Or.inr (Or.inr ?_))
    have hC : pyEndswith name " " = true := (singleton_isSuffixOf_iff ' ' name.data).mpr htrail
    simp [hC]

/-- C7 witness: `"a/b.txt"` contains the forbidden `/` and is
rejected. -/
theorem c7_safe_filename_witness :
    ((∃ sub ∈ ["..", "/", "\\", ":", "*", "?", "\"", "<", ">", "|"],
        sub.data <:+: "a/b.txt".data)
      ∨ (∃ r ∈ ["CON", "PRN", "AUX", "NUL",
            "COM1", "COM2", "COM3", "COM4", "COM5", "COM6", "COM7", "COM8", "COM9",
            "LPT1", "LPT2", "LPT3", "LPT4", "LPT5", "LPT6", "LPT7", "LPT8", "LPT9"],
            (splitextBase "a/b.txt".data).map Char.toUpper = r.data)
      ∨ "a/b.txt" = ""
      ∨ "a/b.txt".data.head? = some '.'
      ∨ "a/b.txt".data.head? = some ' '
      ∨ "a/b.txt".data.getLast? = some ' ') ∧
    (is_safe_filename "a/b.txt" = false ∧
     is_safe_filename "../../etc/passwd" = false ∧
     is_safe_filename "report.txt" = true) :=
  ⟨by decide, c7_safe_filename "a/b.txt" (by decide)⟩

/-- C8: on a session with no prior turns and no rollup, one
`add_message` transaction inserts exactly one `user`/`hello` turn —
returned alone by `get_conversation_history` with limit 10 — and
creates the rollup with `total_messages = 1` in the same transaction. -/
theorem c8_conversation_roundtrip (now : Nat) (s : String) (db : ConvDB)
    (h1 : ∀ r ∈ db.rows, r.session_id ≠ s)
    (h2 : aget s db.summaries = none) :
    (add_message now s "user" "hello" none 0 "" none db).1 = true ∧
    get_conversation_history s 10 (add_message now s "user" "hello" none 0 "" none db).2 =
      [⟨db.next_id, s, "user", "hello", now, none, 0, "", none⟩] ∧
    get_session_summary s (add_message now s "user" "hello" none 0 "" none db).2 =
      some ⟨none, 1, 0, some now, some now, "active"⟩ := by
  refine ⟨rfl, ?_, ?_⟩
  · unfold get_conversation_history add_message
    rw [rows_update_summary]
    have hfil : db.rows.filter (fun r => r.session_id == s) = [] := by
      rw [List.filter_eq_nil_iff]
      intro a ha
      simpa using h1 a ha
    simp only [List.filter_append, hfil, List.nil_append]
    simp [sortRows, insRow]
  · unfold get_session_summary add_message update_session_summary_tx
    simp only [h2]
    exact aget_aset_self _ _ _

/-- C8 witness: the empty store. -/
theorem c8_conversation_roundtrip_witness :
    (∀ r ∈ (⟨[], 1, []⟩ : ConvDB).rows, r.session_id ≠ "s1") ∧
    aget "s1" (⟨[], 1, []⟩ : ConvDB).summaries = none ∧
    ((add_message 7 "s1" "user" "hello" none 0 "" none ⟨[], 1, []⟩).1 = true ∧
    get_conversation_history "s1" 10
        (add_message 7 "s1" "user" "hello" none 0 "" none ⟨[], 1, []⟩).2 =
      [⟨1, "s1", "user", "hello", 7, none, 0, "", none⟩] ∧
    get_session_summary "s1" (add_message 7 "s1" "user" "hello" none 0 "" none ⟨[], 1, []⟩).2 =
      some ⟨none, 1, 0, some 7, some 7, "active"⟩) :=
  ⟨by simp, rfl, c8_conversation_roundtrip 7 "s1" ⟨[], 1, []⟩ (by simp) rfl⟩

/-- C9: `register_session` merges `initial_data` over the seeded
record with a shallow dict update — every key present in
`initial_data` (including `status`, `current_step`, `created_at`,
`error_log`, `session_dir`, `config_path`) replaces the seeded
default, and the idle/zero/empty initial state is guaranteed only for
keys `initial_data` omits. -/
theorem c9_register_shallow_update (now : Nat) (sid query : String) (initData : Dict)
    (st : MgrState) (h1 : aget sid st.sessions = none) (h2 : (dkeys initData).Nodup) :
    (register_session now sid query (some initData) st).1 = true ∧
    ∃ d, aget sid ((register_session now sid query (some initData) st).2).sessions = some d ∧
      (∀ k v, aget k initData = some v → aget k d = some v) ∧
      (aget "status" initData = none → aget "status" d = some (.str "idle")) ∧
      (aget "current_step" initData = none → aget "current_step" d = some (.int 0)) ∧
      (aget "error_log" initData = none → aget "error_log" d = some (.list [])) ∧
      (aget "created_at" initData = none → aget "created_at" d = some (.str (isoTime now))) ∧
      (aget "session_dir" initData = none →
        aget "session_dir" d = some (.str (joinPath st.analyses_base_dir sid))) ∧
      (aget "config_path" initData = none →
        aget "config_path" d =
          some (.str (joinPath (joinPath st.analyses_base_dir sid) "config.json"))) := by
  unfold register_session
  simp only [h1, Option.isSome_none, Bool.false_eq_true, if_false]
  refine ⟨trivial, ?_⟩
  simp only [sessions_save_session_to_disk, aget_aset_self]
  refine ⟨_, rfl, ?_, ?_, ?_, ?_, ?_, ?_, ?_⟩
  · intro k v hkv
    rw [aget_dupdate _ k h2, hkv]
  · intro hnone
    rw [aget_dupdate _ _ h2, hnone]
    rfl
  · intro hnone
    rw [aget_dupdate _ _ h2, hnone]
    rfl
  · intro hnone
    rw [aget_dupdate _ _ h2, hnone]
    rfl
  · intro hnone
    rw [aget_dupdate _ _ h2, hnone]
    rfl
  · intro hnone
    rw [aget_dupdate _ _ h2, hnone]
    rfl
  · intro hnone
    rw [aget_dupdate _ _ h2, hnone]
    rfl

/-- C9 witness: registering with an overlay that replaces `status` and
`session_dir`. -/
theorem c9_register_shallow_update_witness :
    aget "s1" baseState.sessions = none ∧
    (dkeys [("status", Val.str "running"), ("session_dir", Val.str "/tmp/elsewhere")]).Nodup ∧
    ((register_session 0 "s1" "q"
        (some [("status", Val.str "running"), ("session_dir", Val.str "/tmp/elsewhere")])
        baseState).1 = true ∧
    ∃ d, aget "s1" ((register_session 0 "s1" "q"
        (some [("status", Val.str "running"), ("session_dir", Val.str "/tmp/elsewhere")])
        baseState).2).sessions = some d ∧
      (∀ k v, aget k [("status", Val.str "running"), ("session_dir", Val.str "/tmp/elsewhere")] =
          some v → aget k d = some v) ∧
      (aget "status" [("status", Val.str "running"), ("session_dir", Val.str "/tmp/elsewhere")] =
          none → aget "status" d = some (.str "idle")) ∧
      (aget "current_step"
          [("status", Val.str "running"), ("session_dir", Val.str "/tmp/elsewhere")] = none →
        aget "current_step" d = some (.int 0)) ∧
      (aget "error_log"
          [("status", Val.str "running"), ("session_dir", Val.str "/tmp/elsewhere")] = none →
        aget "error_log" d = some (.list [])) ∧
      (aget "created_at"
          [("status", Val.str "running"), ("session_dir", Val.str "/tmp/elsewhere")] = none →
        aget "created_at" d = some (.str (isoTime 0))) ∧
      (aget "session_dir"
          [("status", Val.str "running"), ("session_dir", Val.str "/tmp/elsewhere")] = none →
        aget "session_dir" d = some (.str (joinPath baseState.analyses_base_dir "s1"))) ∧
      (aget "config_path"
          [("status", Val.str "running"), ("session_dir", Val.str "/tmp/elsewhere")] = none →
        aget "config_path" d =
          some (.str (joinPath (joinPath baseState.analyses_base_dir "s1") "config.json")))) :=
  ⟨rfl, by decide,
    c9_register_shallow_update 0 "s1" "q"
      [("status", Val.str "running"), ("session_dir", Val.str "/tmp/elsewhere")]
      baseState rfl (by decide)⟩

/-- C10: `update_progress` never clamps — `5/2` stores `250.0`,
`-1/2` stores `-50.0`, and for every positive `total_steps` the stored
value is exactly the rounded quotient. -/
theorem c10_no_clamping (now : Nat) (sid : String) (st : MgrState) (d : Dict)
    (h1 : aget sid st.sessions = some d) :
    (∃ d', aget sid ((update_progress now sid "m" 5 2 st).2).sessions = some d' ∧
      aget "analysis_progress" d' = some (.obj [
        ("total_steps", .int 2), ("completed_steps", .int 5), ("current_module", .str "m"),
        ("progress_percentage", .rat 250)])) ∧
    (100 : Rat) < 250 ∧
    (∃ d', aget sid ((update_progress now sid "m" (-1) 2 st).2).sessions = some d' ∧
      aget "analysis_progress" d' = some (.obj [
        ("total_steps", .int 2), ("completed_steps", .int (-1)), ("current_module", .str "m"),
        ("progress_percentage", .rat (-50))])) ∧
    ((-50 : Rat) < 0) ∧
    (∀ (c t : Int), 0 < t →
      ∃ d', aget sid ((update_progress now sid "m" c t st).2).sessions = some d' ∧
        aget "analysis_progress" d' = some (.obj [
          ("total_steps", .int t), ("completed_steps", .int c), ("current_module", .str "m"),
          ("progress_percentage", .rat (round2 ((c : Rat) / (t : Rat) * 100)))])) := by
  refine ⟨?_, by norm_num, ?_, by norm_num, ?_⟩
  · have e := (update_progress_result now sid "m" 5 2 st h1).2
    norm_num [round2, roundHalfEven] at e
    exact e
  · have e := (update_progress_result now sid "m" (-1) 2 st h1).2
    norm_num [round2, roundHalfEven] at e
    exact e
  · intro c t ht
    have e := (update_progress_result now sid "m" c t st h1).2
    simp only [if_pos ht] at e
    exact e

/-- C10 witness: applied to the registered session. -/
theorem c10_no_clamping_witness :
    aget "s1" regState.sessions = some ((aget "s1" regState.sessions).getD []) ∧
    ((∃ d', aget "s1" ((update_progress 1 "s1" "m" 5 2 regState).2).sessions = some d' ∧
      aget "analysis_progress" d' = some (.obj [
        ("total_steps", .int 2), ("completed_steps", .int 5), ("current_module", .str "m"),
        ("progress_percentage", .rat 250)])) ∧
    (100 : Rat) < 250 ∧
    (∃ d', aget "s1" ((update_progress 1 "s1" "m" (-1) 2 regState).2).sessions = some d' ∧
      aget "analysis_progress" d' = some (.obj [
        ("total_steps", .int 2), ("completed_steps", .int (-1)), ("current_module", .str "m"),
        ("progress_percentage", .rat (-50))])) ∧
    ((-50 : Rat) < 0) ∧
    (∀ (c t : Int), 0 < t →
      ∃ d', aget "s1" ((update_progress 1 "s1" "m" c t regState).2).sessions = some d' ∧
        aget "analysis_progress" d' = some (.obj [
          ("total_steps", .int t), ("completed_steps", .int c), ("current_module", .str "m"),
          ("progress_percentage", .rat (round2 ((c : Rat) / (t : Rat) * 100)))]))) :=
  ⟨rfl, c10_no_clamping 1 "s1" regState _ rfl⟩

end V310
